import Mathlib

/-
Verification of samples/microsoft/python/getting-started-agents/quickstart.py.

The script is straight-line Python: a client bootstrap, a chat completion,
an agent lifecycle section, a file-search section and an evaluation call.
Two models of it are developed here.

The first model (Act / runNames) records, statement by statement and in
Python evaluation order, which module-level names each statement binds and
references, which remote SDK requests it issues, and which conditional
checks it performs.  Running it under Python name-resolution rules settles
the claims about undefined names and about the number of conditionals.

The second model (quickstart / quickstartRun) is an interpreter of the
script over a mocked SDK: every remote call consults an Oracle that either
returns a response or raises, and the interpreter accumulates the trace of
issued calls and printed lines, stopping at the first raised exception
exactly as an uncaught Python exception would.  It settles the claims about
call order, argument flow, environment reads, determinism and error
propagation.
-/

/-- An atomic action of the Python script, in evaluation order:
an import binding a name, a reference to a module-level name, an
assignment binding a name, an issued remote SDK request, or a conditional
equality check of the given subject against the given literal. -/
inductive Act where
  | imp (n : String)
  | ref (n : String)
  | bind (n : String)
  | sdk (m : String)
  | condCheck (subject rhs : String)
deriving DecidableEq, Repr

/-- Names bound at module level by a list of actions (imports and
assignments). -/
def boundNames : List Act → List String
  | [] => []
  | Act.imp n :: rest => n :: boundNames rest
  | Act.bind n :: rest => n :: boundNames rest
  | _ :: rest => boundNames rest

/-- Python name-resolution semantics over the action list: actions run in
order against the set of bound names; a reference to an unbound name raises
a NameError naming it, and execution stops there.  The result is the list
of SDK requests actually issued together with the name of the first
NameError, if any. -/
def runNames : List Act → List String → List String × Option String
  | [], _ => ([], none)
  | Act.imp n :: rest, bound => runNames rest (n :: bound)
  | Act.bind n :: rest, bound => runNames rest (n :: bound)
  | Act.ref n :: rest, bound =>
      if n ∈ bound then runNames rest bound else ([], some n)
  | Act.sdk m :: rest, bound =>
      let r := runNames rest bound
      (m :: r.1, r.2)
  | Act.condCheck _ _ :: rest, bound => runNames rest bound

/-- Transcription of quickstart.py into actions, one comment per source
line group.  References appear in Python evaluation order: for a call the
callee name is resolved first, then the arguments left to right.  The
bodies of the two if-statements and of the for-loops are transcribed
linearly; they reference only names that are already bound at that point,
so this does not affect name resolution. -/
def quickstartActs : List Act := [
  -- line 24: from dotenv import load_dotenv
  Act.imp "load_dotenv",
  -- line 25: load_dotenv()  (a local library call, not an SDK request)
  Act.ref "load_dotenv",
  -- line 32: from azure.ai.projects.onedp import AIProjectClient
  Act.imp "AIProjectClient",
  -- line 33: from azure.identity import DefaultAzureCredential
  Act.imp "DefaultAzureCredential",
  -- line 34: from azure.ai.projects import FileSearchTool
  Act.imp "FileSearchTool",
  -- lines 37-40: project_client = AIProjectClient(
  --   endpoint=os.environ["PROJECT_ENDPOINT"],
  --   credential=DefaultAzureCredential())
  Act.ref "AIProjectClient", Act.ref "os", Act.ref "DefaultAzureCredential",
  Act.sdk "DefaultAzureCredential", Act.sdk "AIProjectClient",
  Act.bind "project_client",
  -- line 43: openai = project_client.get_openai_client(api_version=...)
  Act.ref "project_client", Act.sdk "get_openai_client", Act.bind "openai",
  -- lines 44-50: response = openai.chat.completions.create(
  --   model=os.environ["MODEL_DEPLOYMENT_NAME"], messages=[...])
  Act.ref "openai", Act.ref "os", Act.sdk "chat.completions.create",
  Act.bind "response",
  -- line 53: print(response.choices[0].message.content)
  Act.ref "print", Act.ref "response",
  -- lines 58-62: agent = project_client.agents.create_agent(
  --   model=os.environ["MODEL_DEPLOYMENT_NAME"], name=..., instructions=...)
  Act.ref "project_client", Act.ref "os", Act.sdk "agents.create_agent",
  Act.bind "agent",
  -- line 63: print of agent.id
  Act.ref "print", Act.ref "agent",
  -- line 66: thread = project_client.agents.threads.create()
  Act.ref "project_client", Act.sdk "agents.threads.create", Act.bind "thread",
  -- line 67: print of thread.id
  Act.ref "print", Act.ref "thread",
  -- lines 70-74: message = project_client.agents.messages.create(
  --   thread_id=thread.id, role="user", content=...)
  Act.ref "project_client", Act.ref "thread", Act.sdk "agents.messages.create",
  Act.bind "message",
  -- line 75: print of message id
  Act.ref "print", Act.ref "message",
  -- line 78: run = project_client.agents.runs.create_and_process(
  --   thread_id=thread.id, agent_id=agent.id)
  Act.ref "project_client", Act.ref "thread", Act.ref "agent",
  Act.sdk "agents.runs.create_and_process", Act.bind "run",
  -- line 79: print of run.status
  Act.ref "print", Act.ref "run",
  -- line 81: if run.status == "failed":
  Act.ref "run", Act.condCheck "run.status" "failed",
  -- line 83: print of run.last_error (executed only on the failed branch)
  Act.ref "print", Act.ref "run",
  -- line 86: messages = project_client.agents.messages.list(thread_id=thread.id)
  Act.ref "project_client", Act.ref "thread", Act.sdk "agents.messages.list",
  Act.bind "messages",
  -- lines 87-88: for message in messages: print(...)
  Act.ref "messages", Act.bind "message", Act.ref "print", Act.ref "message",
  -- line 91: project_client.agents.delete_agent(agent.id)
  Act.ref "project_client", Act.ref "agent", Act.sdk "agents.delete_agent",
  -- line 92: print("Deleted agent")
  Act.ref "print",
  -- line 98: file = project.agents.files.upload(file_path=..., purpose="agents")
  Act.ref "project", Act.sdk "agents.files.upload", Act.bind "file",
  -- line 99: vector_store = project.agents.vector_stores.create_and_poll(
  --   file_ids=[file.id], name="my_vectorstore")
  Act.ref "project", Act.ref "file",
  Act.sdk "agents.vector_stores.create_and_poll", Act.bind "vector_store",
  -- line 102: file_search = FileSearchTool(vector_store_ids=[vector_store.id])
  Act.ref "FileSearchTool", Act.ref "vector_store", Act.bind "file_search",
  -- lines 103-109: agent = project.agents.create_agent(model="gpt-4o", ...,
  --   tools=file_search.definitions, tool_resources=file_search.resources)
  Act.ref "project", Act.ref "file_search", Act.sdk "agents.create_agent",
  Act.bind "agent",
  -- line 112: thread = project.agents.threads.create()
  Act.ref "project", Act.sdk "agents.threads.create", Act.bind "thread",
  -- line 113: project.agents.messages.create(thread_id=thread.id, ...)
  Act.ref "project", Act.ref "thread", Act.sdk "agents.messages.create",
  -- line 114: run = project.agents.runs.create_and_process(
  --   thread_id=thread.id, agent_id=agent.id)
  Act.ref "project", Act.ref "thread", Act.ref "agent",
  Act.sdk "agents.runs.create_and_process", Act.bind "run",
  -- line 117: if run.status == "failed":
  Act.ref "run", Act.condCheck "run.status" "failed",
  -- line 118: print of run.last_error (executed only on the failed branch)
  Act.ref "print", Act.ref "run",
  -- line 121: project.agents.vector_stores.delete(vector_store.id)
  Act.ref "project", Act.ref "vector_store",
  Act.sdk "agents.vector_stores.delete",
  -- line 122: project.agents.files.delete(file_id=file.id)
  Act.ref "project", Act.ref "file", Act.sdk "agents.files.delete",
  -- line 123: project.agents.delete_agent(agent.id)
  Act.ref "project", Act.ref "agent", Act.sdk "agents.delete_agent",
  -- lines 126-127: for message in project.agents.messages.list(
  --   thread_id=thread.id).text_messages: print(message)
  Act.ref "project", Act.ref "thread", Act.sdk "agents.messages.list",
  Act.bind "message", Act.ref "print", Act.ref "message",
  -- line 131: from azure.ai.projects import EvaluatorIds
  Act.imp "EvaluatorIds",
  -- lines 133-136: result = project.evaluation.create_agent_evaluation(
  --   thread=thread.id, run=run.id, evaluators=[EvaluatorIds....])
  Act.ref "project", Act.ref "thread", Act.ref "run", Act.ref "EvaluatorIds",
  Act.sdk "evaluation.create_agent_evaluation", Act.bind "result",
  -- line 139: result.wait_for_completion()
  Act.ref "result", Act.sdk "wait_for_completion",
  -- line 142: print(result.output())
  Act.ref "print", Act.ref "result", Act.sdk "output"]

/-- Conditional checks occurring in the action list. -/
def condChecks (acts : List Act) : List Act :=
  acts.filter fun a => match a with
    | Act.condCheck _ _ => true
    | _ => false

/-- C1: quickstart.py references the name os without importing it (first at
the client bootstrap) and references the name project, which is never
bound; run under Python name resolution it raises a NameError on os before
any SDK request is issued. -/
theorem undefined_names_halt_before_any_sdk_call :
    runNames quickstartActs ["print"] = ([], some "os")
    ∧ "os" ∉ boundNames quickstartActs
    ∧ "project" ∉ boundNames quickstartActs
    ∧ Act.ref "project" ∈ quickstartActs := by
  decide

/-- C2 counterexample: the script does not contain exactly one conditional
check; it contains two (lines 81 and 117). -/
theorem single_conditional_refuted :
    ¬ (condChecks quickstartActs).length = 1 := by
  decide

/-- C2 amended: the script performs exactly two conditional checks, both
equality tests of a run status against the string failed, and no other
conditional branching occurs anywhere in the script. -/
theorem exactly_two_status_conditionals :
    condChecks quickstartActs =
      [Act.condCheck "run.status" "failed",
       Act.condCheck "run.status" "failed"] := by
  decide

/-- An observable event of the script under the mocked SDK: a remote call
with its method path and its arguments rendered as key-value string pairs,
or a line printed to stdout. -/
inductive Event where
  | call (method : String) (args : List (String × String))
  | print (line : String)
deriving DecidableEq, Repr

/-- The fields of a run object that the script reads: run.status,
run.last_error and run.id. -/
structure RunResult where
  status : String
  last_error : String
  id : String
deriving DecidableEq, Repr

/-- The mocked SDK: one response per call site of the script, in program
order.  An Except.error models the call raising an exception. -/
structure Oracle where
  credential : Except String Unit
  client : Except String Unit
  openai_client : Except String Unit
  chat_completion : Except String String
  create_agent : Except String String
  thread_create : Except String String
  message_create : Except String String
  run_result : Except String RunResult
  messages_list : Except String (List (String × String))
  delete_agent : Except String Unit
  file_upload : Except String String
  vector_store_create : Except String String
  fs_create_agent : Except String String
  fs_thread_create : Except String String
  fs_message_create : Except String String
  fs_run_result : Except String RunResult
  vector_store_delete : Except String Unit
  file_delete : Except String Unit
  fs_delete_agent : Except String Unit
  fs_messages_list : Except String (List String)
  eval_create : Except String Unit
  eval_wait : Except String Unit
  eval_output : Except String String

/-- The script computation: it extends the accumulated event trace and
either returns a value or stops with an uncaught exception. -/
def TraceM (α : Type) : Type := List Event → List Event × Except String α

instance : Monad TraceM where
  pure a := fun evts => (evts, Except.ok a)
  bind m f := fun evts =>
    match m evts with
    | (evts2, Except.ok a) => f a evts2
    | (evts2, Except.error e) => (evts2, Except.error e)

/-- Record one printed line. -/
def emit (e : Event) : TraceM Unit :=
  fun evts => (evts ++ [e], Except.ok ())

/-- Record a sequence of printed lines (a print loop). -/
def emitAll (es : List Event) : TraceM Unit :=
  fun evts => (evts ++ es, Except.ok ())

/-- Issue a remote call: the call event is recorded (the request is sent),
then the mocked response is returned or its exception propagates. -/
def sdkCall (method : String) (args : List (String × String))
    (resp : Except String α) : TraceM α :=
  fun evts => (evts ++ [Event.call method args], resp)

/-- Read os.environ at the given key: a missing key raises KeyError before
any call event is recorded. -/
def envRead (env : String → Option String) (key : String) : TraceM String :=
  fun evts =>
    match env key with
    | some v => (evts, Except.ok v)
    | none => (evts, Except.error ("KeyError: " ++ key))

/-- The FileSearchTool object of the SDK as the script uses it: it is
constructed locally from vector store ids (line 102) and its definitions
and resources properties are passed to agent creation (lines 107-108).
Part of the mocked SDK boundary: only the flow of the vector store ids
into the agent-creation arguments is observable to the script. -/
structure FileSearchTool where
  vector_store_ids : List String
deriving DecidableEq, Repr

def FileSearchTool.definitions (_t : FileSearchTool) : String :=
  "file_search"

def FileSearchTool.resources (t : FileSearchTool) : String :=
  String.intercalate "," t.vector_store_ids

/-- Lines 81-83 and 117-118: if run.status == "failed": print the run's
last_error. -/
def statusCheck (run : RunResult) : TraceM Unit :=
  if run.status == "failed" then
    emit (Event.print ("Run failed: " ++ run.last_error))
  else
    pure ()

/-- The script quickstart.py, line by line, over the mocked SDK.  Method
paths keep the receiver exactly as written in the source (project_client
in the agent-lifecycle section, project in the file-search and evaluation
sections); under the mock both resolve to the same project client. -/
def quickstart (env : String → Option String) (o : Oracle) : TraceM Unit := do
  -- lines 37-40: client bootstrap
  let endpoint ← envRead env "PROJECT_ENDPOINT"
  let _ ← sdkCall "DefaultAzureCredential" [] o.credential
  let _ ← sdkCall "AIProjectClient"
      [("endpoint", endpoint), ("credential", "DefaultAzureCredential()")]
      o.client
  -- line 43
  let _ ← sdkCall "project_client.get_openai_client"
      [("api_version", "2024-06-01")] o.openai_client
  -- lines 44-50: chat completion
  let model ← envRead env "MODEL_DEPLOYMENT_NAME"
  let content ← sdkCall "openai.chat.completions.create"
      [("model", model),
       ("messages.system", "You are a helpful writing assistant"),
       ("messages.user", "Write me a poem about flowers")]
      o.chat_completion
  -- line 53
  emit (Event.print content)
  -- lines 58-63: create agent
  let agent_id ← sdkCall "project_client.agents.create_agent"
      [("model", model), ("name", "my-agent"),
       ("instructions", "You are a helpful writing assistant")]
      o.create_agent
  emit (Event.print ("Created agent, ID: " ++ agent_id))
  -- lines 66-67: create thread
  let thread_id ← sdkCall "project_client.agents.threads.create" []
      o.thread_create
  emit (Event.print ("Created thread, ID: " ++ thread_id))
  -- lines 70-75: post user message
  let message_id ← sdkCall "project_client.agents.messages.create"
      [("thread_id", thread_id), ("role", "user"),
       ("content", "Write me a poem about flowers")]
      o.message_create
  emit (Event.print ("Created message, ID: " ++ message_id))
  -- lines 78-79: create and process run
  let run ← sdkCall "project_client.agents.runs.create_and_process"
      [("thread_id", thread_id), ("agent_id", agent_id)] o.run_result
  emit (Event.print ("Run finished with status: " ++ run.status))
  -- lines 81-83
  statusCheck run
  -- lines 86-88: list and print thread messages
  let msgs ← sdkCall "project_client.agents.messages.list"
      [("thread_id", thread_id)] o.messages_list
  emitAll (msgs.map fun m =>
    Event.print ("Role: " ++ m.1 ++ ", Content: " ++ m.2))
  -- lines 91-92: delete agent
  let _ ← sdkCall "project_client.agents.delete_agent"
      [("agent_id", agent_id)] o.delete_agent
  emit (Event.print "Deleted agent")
  -- line 98: upload file
  let file_id ← sdkCall "project.agents.files.upload"
      [("file_path", "product_info_1.md"), ("purpose", "agents")]
      o.file_upload
  -- line 99: create vector store over the uploaded file
  let vector_store_id ← sdkCall "project.agents.vector_stores.create_and_poll"
      [("file_ids", file_id), ("name", "my_vectorstore")]
      o.vector_store_create
  -- line 102
  let file_search : FileSearchTool := ⟨[vector_store_id]⟩
  -- lines 103-109: create agent with the file-search tool attached
  let fs_agent_id ← sdkCall "project.agents.create_agent"
      [("model", "gpt-4o"), ("name", "my-assistant"),
       ("instructions",
        "You are a helpful assistant and can search information from uploaded files"),
       ("tools", file_search.definitions),
       ("tool_resources", file_search.resources)]
      o.fs_create_agent
  -- line 112
  let fs_thread_id ← sdkCall "project.agents.threads.create" []
      o.fs_thread_create
  -- line 113
  let _ ← sdkCall "project.agents.messages.create"
      [("thread_id", fs_thread_id), ("role", "user"),
       ("content", "Hello, what Contoso products do you know?")]
      o.fs_message_create
  -- line 114
  let fs_run ← sdkCall "project.agents.runs.create_and_process"
      [("thread_id", fs_thread_id), ("agent_id", fs_agent_id)]
      o.fs_run_result
  -- lines 117-118
  statusCheck fs_run
  -- lines 121-123: cleanup
  let _ ← sdkCall "project.agents.vector_stores.delete"
      [("vector_store_id", vector_store_id)] o.vector_store_delete
  let _ ← sdkCall "project.agents.files.delete"
      [("file_id", file_id)] o.file_delete
  let _ ← sdkCall "project.agents.delete_agent"
      [("agent_id", fs_agent_id)] o.fs_delete_agent
  -- lines 126-127: list and print thread text messages
  let texts ← sdkCall "project.agents.messages.list"
      [("thread_id", fs_thread_id)] o.fs_messages_list
  emitAll (texts.map fun t => Event.print t)
  -- lines 133-136: evaluate the run
  let _ ← sdkCall "project.evaluation.create_agent_evaluation"
      [("thread", fs_thread_id), ("run", fs_run.id),
       ("evaluators", "EvaluatorIds.AGENT_QUALITY_EVALUATOR")]
      o.eval_create
  -- line 139
  let _ ← sdkCall "result.wait_for_completion" [] o.eval_wait
  -- line 142
  let out ← sdkCall "result.output" [] o.eval_output
  emit (Event.print out)

/-- Run the script from the empty trace. -/
def quickstartRun (env : String → Option String) (o : Oracle) :
    List Event × Except String Unit :=
  quickstart env o []

/-- One pure response per call site: the mocked client answering every
call successfully. -/
structure Responses where
  chat_content : String
  agent_id : String
  thread_id : String
  message_id : String
  run1 : RunResult
  thread_messages : List (String × String)
  file_id : String
  vector_store_id : String
  fs_agent_id : String
  fs_thread_id : String
  fs_message_id : String
  fs_run : RunResult
  text_messages : List String
  eval_out : String

/-- The oracle in which every call returns the given responses. -/
def okOracle (r : Responses) : Oracle where
  credential := Except.ok ()
  client := Except.ok ()
  openai_client := Except.ok ()
  chat_completion := Except.ok r.chat_content
  create_agent := Except.ok r.agent_id
  thread_create := Except.ok r.thread_id
  message_create := Except.ok r.message_id
  run_result := Except.ok r.run1
  messages_list := Except.ok r.thread_messages
  delete_agent := Except.ok ()
  file_upload := Except.ok r.file_id
  vector_store_create := Except.ok r.vector_store_id
  fs_create_agent := Except.ok r.fs_agent_id
  fs_thread_create := Except.ok r.fs_thread_id
  fs_message_create := Except.ok r.fs_message_id
  fs_run_result := Except.ok r.fs_run
  vector_store_delete := Except.ok ()
  file_delete := Except.ok ()
  fs_delete_agent := Except.ok ()
  fs_messages_list := Except.ok r.text_messages
  eval_create := Except.ok ()
  eval_wait := Except.ok ()
  eval_output := Except.ok r.eval_out

/-- The process environment holding exactly the two variables the script
documents. -/
def mkEnv (endpoint model : String) : String → Option String :=
  fun key =>
    if key = "PROJECT_ENDPOINT" then some endpoint
    else if key = "MODEL_DEPLOYMENT_NAME" then some model
    else none

/-- The remote calls of a trace, prints dropped. -/
def callsOf : List Event → List Event
  | [] => []
  | Event.call m a :: rest => Event.call m a :: callsOf rest
  | Event.print _ :: rest => callsOf rest

/-- The method paths of the remote calls of a trace, in order. -/
def methodsOf : List Event → List String
  | [] => []
  | Event.call m _ :: rest => m :: methodsOf rest
  | Event.print _ :: rest => methodsOf rest

/-- The full sequence of method paths the script issues when nothing
raises, in program order. -/
def fullMethods : List String :=
  ["DefaultAzureCredential",
   "AIProjectClient",
   "project_client.get_openai_client",
   "openai.chat.completions.create",
   "project_client.agents.create_agent",
   "project_client.agents.threads.create",
   "project_client.agents.messages.create",
   "project_client.agents.runs.create_and_process",
   "project_client.agents.messages.list",
   "project_client.agents.delete_agent",
   "project.agents.files.upload",
   "project.agents.vector_stores.create_and_poll",
   "project.agents.create_agent",
   "project.agents.threads.create",
   "project.agents.messages.create",
   "project.agents.runs.create_and_process",
   "project.agents.vector_stores.delete",
   "project.agents.files.delete",
   "project.agents.delete_agent",
   "project.agents.messages.list",
   "project.evaluation.create_agent_evaluation",
   "result.wait_for_completion",
   "result.output"]

@[simp]
theorem bind_apply (m : TraceM α) (f : α → TraceM β) (evts : List Event) :
    (m >>= f) evts =
      match m evts with
      | (evts2, Except.ok a) => f a evts2
      | (evts2, Except.error e) => (evts2, Except.error e) := rfl

@[simp]
theorem pure_apply (a : α) (evts : List Event) :
    (pure a : TraceM α) evts = (evts, Except.ok a) := rfl

@[simp]
theorem emit_apply (e : Event) (evts : List Event) :
    emit e evts = (evts ++ [e], Except.ok ()) := rfl

@[simp]
theorem emitAll_apply (es evts : List Event) :
    emitAll es evts = (evts ++ es, Except.ok ()) := rfl

@[simp]
theorem sdkCall_apply (method : String) (args : List (String × String))
    (resp : Except String α) (evts : List Event) :
    sdkCall method args resp evts =
      (evts ++ [Event.call method args], resp) := rfl

@[simp]
theorem envRead_apply (env : String → Option String) (key : String)
    (evts : List Event) :
    envRead env key evts =
      match env key with
      | some v => (evts, Except.ok v)
      | none => (evts, Except.error ("KeyError: " ++ key)) := rfl

@[simp]
theorem statusCheck_apply (run : RunResult) (evts : List Event) :
    statusCheck run evts =
      (evts ++
        (if run.status == "failed" then
          [Event.print ("Run failed: " ++ run.last_error)]
         else []),
       Except.ok ()) := by
  cases h : run.status == "failed" <;>
    simp [statusCheck, h, emit, pure_apply, Pure.pure]

@[simp]
theorem mkEnv_endpoint (endpoint model : String) :
    mkEnv endpoint model "PROJECT_ENDPOINT" = some endpoint := rfl

@[simp]
theorem mkEnv_model (endpoint model : String) :
    mkEnv endpoint model "MODEL_DEPLOYMENT_NAME" = some model := rfl

@[simp]
theorem callsOf_append (a b : List Event) :
    callsOf (a ++ b) = callsOf a ++ callsOf b := by
  induction a with
  | nil => rfl
  | cons e t ih => cases e <;> simp [callsOf, ih]

@[simp]
theorem methodsOf_append (a b : List Event) :
    methodsOf (a ++ b) = methodsOf a ++ methodsOf b := by
  induction a with
  | nil => rfl
  | cons e t ih => cases e <;> simp [methodsOf, ih]

@[simp]
theorem callsOf_map_print (xs : List α) (f : α → String) :
    callsOf (xs.map fun x => Event.print (f x)) = [] := by
  induction xs with
  | nil => rfl
  | cons x t ih => simp [callsOf, ih]

@[simp]
theorem methodsOf_map_print (xs : List α) (f : α → String) :
    methodsOf (xs.map fun x => Event.print (f x)) = [] := by
  induction xs with
  | nil => rfl
  | cons x t ih => simp [methodsOf, ih]

@[simp]
theorem callsOf_map_print_id (xs : List String) :
    callsOf (xs.map fun t => Event.print t) = [] := by
  induction xs with
  | nil => rfl
  | cons x t ih => simp [callsOf, ih]

@[simp]
theorem methodsOf_map_print_id (xs : List String) :
    methodsOf (xs.map fun t => Event.print t) = [] := by
  induction xs with
  | nil => rfl
  | cons x t ih => simp [methodsOf, ih]

@[simp]
theorem callsOf_ite_print (c : Prop) [Decidable c] (s : String) :
    callsOf (if c then [Event.print s] else []) = [] := by
  split <;> rfl

@[simp]
theorem methodsOf_ite_print (c : Prop) [Decidable c] (s : String) :
    methodsOf (if c then [Event.print s] else []) = [] := by
  split <;> rfl

/-- The method paths of the agent-lifecycle section (lines 56-93). -/
def lifecycleMethods : List String :=
  ["project_client.agents.create_agent",
   "project_client.agents.threads.create",
   "project_client.agents.messages.create",
   "project_client.agents.runs.create_and_process",
   "project_client.agents.messages.list",
   "project_client.agents.delete_agent"]

/-- Whether an event is a call of the agent-lifecycle section. -/
def isLifecycleCall (e : Event) : Bool :=
  match e with
  | Event.call m _ => lifecycleMethods.contains m
  | Event.print _ => false

/-- C3: under a mocked client answering every call, the agent-lifecycle
section issues exactly create agent, create thread, post user message,
create-and-process run, list messages, delete agent, in this order, each
later call receiving the identifiers returned by the earlier calls. -/
theorem agent_lifecycle_call_order (endpoint model : String) (r : Responses) :
    (callsOf (quickstartRun (mkEnv endpoint model) (okOracle r)).1).filter
        isLifecycleCall =
      [Event.call "project_client.agents.create_agent"
         [("model", model), ("name", "my-agent"),
          ("instructions", "You are a helpful writing assistant")],
       Event.call "project_client.agents.threads.create" [],
       Event.call "project_client.agents.messages.create"
         [("thread_id", r.thread_id), ("role", "user"),
          ("content", "Write me a poem about flowers")],
       Event.call "project_client.agents.runs.create_and_process"
         [("thread_id", r.thread_id), ("agent_id", r.agent_id)],
       Event.call "project_client.agents.messages.list"
         [("thread_id", r.thread_id)],
       Event.call "project_client.agents.delete_agent"
         [("agent_id", r.agent_id)]] := by
  cases h1 : r.run1.status == "failed" <;>
    cases h2 : r.fs_run.status == "failed" <;>
      simp [quickstartRun, quickstart, okOracle, h1, h2, callsOf,
        isLifecycleCall, lifecycleMethods, FileSearchTool.definitions,
        FileSearchTool.resources, String.intercalate, String.intercalate.go,
        List.filter]

theorem isPrefixOf_extend (a b c : List String)
    (h : a.isPrefixOf b = true) : a.isPrefixOf (b ++ c) = true := by
  simp only [ List.isPrefixOf_iff_prefix] at h ⊢
  obtain ⟨t, rfl⟩ := h
  exact ⟨t ++ c, by rw [List.append_assoc]⟩

theorem isPrefixOf_shift (c a b : List String)
    (h : a.isPrefixOf b = true) : (c ++ a).isPrefixOf (c ++ b) = true := by
  simp only [ List.isPrefixOf_iff_prefix] at h ⊢
  obtain ⟨t, rfl⟩ := h
  exact ⟨t, by rw [List.append_assoc]⟩

/-- A computation emits calls whose method paths extend the trace by some
prefix of ms, the whole of ms exactly when it returns without raising. -/
def Emits (m : TraceM α) (ms : List String) : Prop :=
  ∀ evts, ∃ tail,
    methodsOf ((m evts).1) = methodsOf evts ++ tail
    ∧ tail.isPrefixOf ms = true
    ∧ (∀ a, (m evts).2 = Except.ok a → tail = ms)

theorem emits_pure (a : α) : Emits (pure a : TraceM α) [] := by
  intro evts
  exact ⟨[], by simp, rfl, fun _ _ => rfl⟩

theorem emits_emit (s : String) : Emits (emit (Event.print s)) [] := by
  intro evts
  exact ⟨[], by simp [methodsOf], rfl, fun _ _ => rfl⟩

theorem emits_emitAll (es : List Event) (h : methodsOf es = []) :
    Emits (emitAll es) [] := by
  intro evts
  exact ⟨[], by simp [h], rfl, fun _ _ => rfl⟩

theorem emits_sdkCall (method : String) (args : List (String × String))
    (resp : Except String α) : Emits (sdkCall method args resp) [method] := by
  intro evts
  refine ⟨[method], by simp [methodsOf], ?_, fun _ _ => rfl⟩
  simp [List.isPrefixOf]

theorem emits_envRead (env : String → Option String) (k : String) :
    Emits (envRead env k) [] := by
  intro evts
  refine ⟨[], ?_, rfl, fun _ _ => rfl⟩
  cases h : env k <;> simp [envRead, h]

theorem emits_statusCheck (run : RunResult) : Emits (statusCheck run) [] := by
  intro evts
  exact ⟨[], by simp, rfl, fun _ _ => rfl⟩

theorem emits_bind {m : TraceM α} {f : α → TraceM β} {ms ms2 : List String}
    (hm : Emits m ms) (hf : ∀ a, Emits (f a) ms2) :
    Emits (m >>= f) (ms ++ ms2) := by
  intro evts
  obtain ⟨tail, h1, h2, h3⟩ := hm evts
  rcases hme : m evts with ⟨evts2, res⟩
  rw [hme] at h1 h3
  cases res with
  | error e =>
    refine ⟨tail, ?_, isPrefixOf_extend _ _ _ h2, ?_⟩
    · simp only [bind_apply, hme]
      exact h1
    · intro b hb
      simp only [bind_apply, hme] at hb
      simp at hb
  | ok a =>
    have htail : tail = ms := h3 a rfl
    obtain ⟨tail2, g1, g2, g3⟩ := hf a evts2
    refine ⟨tail ++ tail2, ?_, ?_, ?_⟩
    · simp only [bind_apply, hme]
      rw [g1, h1, List.append_assoc]
    · rw [htail]
      exact isPrefixOf_shift _ _ _ g2
    · intro b hb
      simp only [bind_apply, hme] at hb
      rw [htail, g3 b hb]

/-- The script only ever issues calls along the nominal program-order
method sequence: however the environment and the mocked SDK behave, the
methods of the issued calls are a prefix of fullMethods, and the whole of
it exactly when nothing raises. -/
theorem quickstart_emits (env : String → Option String) (o : Oracle) :
    Emits (quickstart env o) fullMethods := by
  unfold quickstart
  refine emits_bind (emits_envRead env "PROJECT_ENDPOINT") fun endpoint => ?_
  refine emits_bind (emits_sdkCall _ _ _) fun _ => ?_
  refine emits_bind (emits_sdkCall _ _ _) fun _ => ?_
  refine emits_bind (emits_sdkCall _ _ _) fun _ => ?_
  refine emits_bind (emits_envRead env "MODEL_DEPLOYMENT_NAME") fun model => ?_
  refine emits_bind (emits_sdkCall _ _ _) fun content => ?_
  refine emits_bind (emits_emit _) fun _ => ?_
  refine emits_bind (emits_sdkCall _ _ _) fun agent_id => ?_
  refine emits_bind (emits_emit _) fun _ => ?_
  refine emits_bind (emits_sdkCall _ _ _) fun thread_id => ?_
  refine emits_bind (emits_emit _) fun _ => ?_
  refine emits_bind (emits_sdkCall _ _ _) fun message_id => ?_
  refine emits_bind (emits_emit _) fun _ => ?_
  refine emits_bind (emits_sdkCall _ _ _) fun run => ?_
  refine emits_bind (emits_emit _) fun _ => ?_
  refine emits_bind (emits_statusCheck _) fun _ => ?_
  refine emits_bind (emits_sdkCall _ _ _) fun msgs => ?_
  refine emits_bind (emits_emitAll _ (by simp)) fun _ => ?_
  refine emits_bind (emits_sdkCall _ _ _) fun _ => ?_
  refine emits_bind (emits_emit _) fun _ => ?_
  refine emits_bind (emits_sdkCall _ _ _) fun file_id => ?_
  refine emits_bind (emits_sdkCall _ _ _) fun vector_store_id => ?_
  refine emits_bind (emits_sdkCall _ _ _) fun fs_agent_id => ?_
  refine emits_bind (emits_sdkCall _ _ _) fun fs_thread_id => ?_
  refine emits_bind (emits_sdkCall _ _ _) fun _ => ?_
  refine emits_bind (emits_sdkCall _ _ _) fun fs_run => ?_
  refine emits_bind (emits_statusCheck _) fun _ => ?_
  refine emits_bind (emits_sdkCall _ _ _) fun _ => ?_
  refine emits_bind (emits_sdkCall _ _ _) fun _ => ?_
  refine emits_bind (emits_sdkCall _ _ _) fun _ => ?_
  refine emits_bind (emits_sdkCall _ _ _) fun texts => ?_
  refine emits_bind (emits_emitAll _ (by simp)) fun _ => ?_
  refine emits_bind (emits_sdkCall _ _ _) fun _ => ?_
  refine emits_bind (emits_sdkCall _ _ _) fun _ => ?_
  refine emits_bind (emits_sdkCall _ _ _) fun out => ?_
  exact emits_emit _

/-- C6: for every failure of a call (missing environment variable,
authentication failure, network error, SDK exception) the script performs
no local handling: when the run ends with an uncaught exception, the calls
issued up to that point are a prefix of the nominal program-order call
sequence and nothing after the failing call is issued. -/
theorem uncaught_exception_truncates_trace (env : String → Option String)
    (o : Oracle) (e : String)
    (_herr : (quickstartRun env o).2 = Except.error e) :
    (methodsOf (quickstartRun env o).1).isPrefixOf fullMethods = true := by
  obtain ⟨tail, h1, h2, _⟩ := quickstart_emits env o []
  have ht : methodsOf (quickstartRun env o).1 = tail := by
    simpa [quickstartRun, methodsOf] using h1
  rw [ht]
  exact h2

/-- Concrete mocked responses used by the closed witness instances. -/
def demoResponses : Responses where
  chat_content := "a poem"
  agent_id := "agent-1"
  thread_id := "thread-1"
  message_id := "msg-1"
  run1 := ⟨"completed", "", "run-1"⟩
  thread_messages := [("user", "Write me a poem about flowers")]
  file_id := "file-1"
  vector_store_id := "vs-1"
  fs_agent_id := "agent-2"
  fs_thread_id := "thread-2"
  fs_message_id := "msg-2"
  fs_run := ⟨"failed", "rate limited", "run-2"⟩
  text_messages := ["hello"]
  eval_out := "eval done"

theorem uncaught_exception_truncates_trace_witness :
    (methodsOf
        (quickstartRun (fun _ => none) (okOracle demoResponses)).1).isPrefixOf
      fullMethods = true :=
  uncaught_exception_truncates_trace (fun _ => none) (okOracle demoResponses)
    "KeyError: PROJECT_ENDPOINT" (by rfl)

/-- C7: the script is deterministic in its inputs: two executions with the
same environment and the same mocked responses issue the same calls with
the same arguments and print the same lines; no other input source exists
in the model. -/
theorem script_deterministic (env env2 : String → Option String)
    (o o2 : Oracle) (henv : ∀ k, env k = env2 k) (ho : o = o2) :
    quickstartRun env o = quickstartRun env2 o2 := by
  have he : env = env2 := funext henv
  rw [he, ho]

theorem script_deterministic_witness :
    quickstartRun (mkEnv "E" "M") (okOracle demoResponses) =
      quickstartRun (mkEnv "E" "M") (okOracle demoResponses) :=
  script_deterministic (mkEnv "E" "M") (mkEnv "E" "M")
    (okOracle demoResponses) (okOracle demoResponses) (fun _ => rfl) rfl

theorem envRead_congr (env env2 : String → Option String) (k : String)
    (h : env k = env2 k) : envRead env k = envRead env2 k := by
  funext evts
  simp only [envRead, h]

/-- C5: the script reads the environment only at PROJECT_ENDPOINT and
MODEL_DEPLOYMENT_NAME — two environments agreeing on those two keys give
identical runs — and, under the mocked client, PROJECT_ENDPOINT is used
once as the client endpoint while MODEL_DEPLOYMENT_NAME is the model
argument of the chat completion and of the first agent creation. -/
theorem env_reads_limited_to_two_keys
    (env env2 : String → Option String) (o : Oracle)
    (endpoint model : String) (r : Responses)
    (h1 : env "PROJECT_ENDPOINT" = env2 "PROJECT_ENDPOINT")
    (h2 : env "MODEL_DEPLOYMENT_NAME" = env2 "MODEL_DEPLOYMENT_NAME") :
    quickstartRun env o = quickstartRun env2 o
    ∧ (callsOf (quickstartRun (mkEnv endpoint model) (okOracle r)).1).filter
        (fun e => match e with
          | Event.call m _ => m == "AIProjectClient"
          | Event.print _ => false) =
      [Event.call "AIProjectClient"
        [("endpoint", endpoint), ("credential", "DefaultAzureCredential()")]]
    ∧ (callsOf (quickstartRun (mkEnv endpoint model) (okOracle r)).1).filter
        (fun e => match e with
          | Event.call m _ => m == "openai.chat.completions.create"
          | Event.print _ => false) =
      [Event.call "openai.chat.completions.create"
        [("model", model),
         ("messages.system", "You are a helpful writing assistant"),
         ("messages.user", "Write me a poem about flowers")]]
    ∧ (callsOf (quickstartRun (mkEnv endpoint model) (okOracle r)).1).filter
        (fun e => match e with
          | Event.call m _ => m == "project_client.agents.create_agent"
          | Event.print _ => false) =
      [Event.call "project_client.agents.create_agent"
        [("model", model), ("name", "my-agent"),
         ("instructions", "You are a helpful writing assistant")]] := by
  refine ⟨?_, ?_, ?_, ?_⟩
  · show quickstart env o [] = quickstart env2 o []
    unfold quickstart
    simp only [envRead_congr env env2 "PROJECT_ENDPOINT" h1,
      envRead_congr env env2 "MODEL_DEPLOYMENT_NAME" h2]
  all_goals
    simp [quickstartRun, quickstart, okOracle, callsOf,
      FileSearchTool.definitions, FileSearchTool.resources,
      String.intercalate, String.intercalate.go, List.filter]

theorem env_reads_limited_to_two_keys_witness :
    quickstartRun (mkEnv "E" "M") (okOracle demoResponses) =
      quickstartRun
        (fun k => if k = "OTHER_VAR" then some "x" else mkEnv "E" "M" k)
        (okOracle demoResponses)
    ∧ (callsOf
          (quickstartRun (mkEnv "E" "M") (okOracle demoResponses)).1).filter
        (fun e => match e with
          | Event.call m _ => m == "AIProjectClient"
          | Event.print _ => false) =
      [Event.call "AIProjectClient"
        [("endpoint", "E"), ("credential", "DefaultAzureCredential()")]]
    ∧ (callsOf
          (quickstartRun (mkEnv "E" "M") (okOracle demoResponses)).1).filter
        (fun e => match e with
          | Event.call m _ => m == "openai.chat.completions.create"
          | Event.print _ => false) =
      [Event.call "openai.chat.completions.create"
        [("model", "M"),
         ("messages.system", "You are a helpful writing assistant"),
         ("messages.user", "Write me a poem about flowers")]]
    ∧ (callsOf
          (quickstartRun (mkEnv "E" "M") (okOracle demoResponses)).1).filter
        (fun e => match e with
          | Event.call m _ => m == "project_client.agents.create_agent"
          | Event.print _ => false) =
      [Event.call "project_client.agents.create_agent"
        [("model", "M"), ("name", "my-agent"),
         ("instructions", "You are a helpful writing assistant")]] :=
  env_reads_limited_to_two_keys (mkEnv "E" "M")
    (fun k => if k = "OTHER_VAR" then some "x" else mkEnv "E" "M" k)
    (okOracle demoResponses) "E" "M" demoResponses rfl rfl

/-- The method paths of the file-search section (lines 96-128). -/
def fileSearchMethods : List String :=
  ["project.agents.files.upload",
   "project.agents.vector_stores.create_and_poll",
   "project.agents.create_agent",
   "project.agents.threads.create",
   "project.agents.messages.create",
   "project.agents.runs.create_and_process",
   "project.agents.vector_stores.delete",
   "project.agents.files.delete",
   "project.agents.delete_agent",
   "project.agents.messages.list"]

/-- Whether an event is a call of the file-search section. -/
def isFileSearchCall (e : Event) : Bool :=
  match e with
  | Event.call m _ => fileSearchMethods.contains m
  | Event.print _ => false

/-- C4: under a mocked client answering every call, the file-search
section issues upload file, create vector store over that file, create
the agent with the file-search tool attached, create thread, post
message, run, then the cleanup deletions and the message listing, in this
order, each later call receiving the identifiers returned by the earlier
calls. -/
theorem filesearch_call_order (endpoint model : String) (r : Responses) :
    (callsOf (quickstartRun (mkEnv endpoint model) (okOracle r)).1).filter
        isFileSearchCall =
      [Event.call "project.agents.files.upload"
         [("file_path", "product_info_1.md"), ("purpose", "agents")],
       Event.call "project.agents.vector_stores.create_and_poll"
         [("file_ids", r.file_id), ("name", "my_vectorstore")],
       Event.call "project.agents.create_agent"
         [("model", "gpt-4o"), ("name", "my-assistant"),
          ("instructions",
           "You are a helpful assistant and can search information from uploaded files"),
          ("tools", "file_search"),
          ("tool_resources", r.vector_store_id)],
       Event.call "project.agents.threads.create" [],
       Event.call "project.agents.messages.create"
         [("thread_id", r.fs_thread_id), ("role", "user"),
          ("content", "Hello, what Contoso products do you know?")],
       Event.call "project.agents.runs.create_and_process"
         [("thread_id", r.fs_thread_id), ("agent_id", r.fs_agent_id)],
       Event.call "project.agents.vector_stores.delete"
         [("vector_store_id", r.vector_store_id)],
       Event.call "project.agents.files.delete" [("file_id", r.file_id)],
       Event.call "project.agents.delete_agent"
         [("agent_id", r.fs_agent_id)],
       Event.call "project.agents.messages.list"
         [("thread_id", r.fs_thread_id)]] := by
  simp [quickstartRun, quickstart, okOracle, callsOf, isFileSearchCall,
    fileSearchMethods, FileSearchTool.definitions, FileSearchTool.resources,
    String.intercalate, String.intercalate.go, List.filter]

/-- The cleanup deletions of the file-search section together with its
message listing. -/
def cleanupAndListMethods : List String :=
  ["project.agents.vector_stores.delete",
   "project.agents.files.delete",
   "project.agents.delete_agent",
   "project.agents.messages.list"]

/-- Whether an event is a cleanup deletion or the message listing of the
file-search section. -/
def isCleanupOrListCall (e : Event) : Bool :=
  match e with
  | Event.call m _ => cleanupAndListMethods.contains m
  | Event.print _ => false

/-- C9: in the file-search section the cleanup deletions are issued
strictly before the thread messages are listed: delete vector store,
then delete file, then delete agent, and only then list the messages. -/
theorem cleanup_precedes_message_listing (endpoint model : String)
    (r : Responses) :
    (callsOf (quickstartRun (mkEnv endpoint model) (okOracle r)).1).filter
        isCleanupOrListCall =
      [Event.call "project.agents.vector_stores.delete"
         [("vector_store_id", r.vector_store_id)],
       Event.call "project.agents.files.delete" [("file_id", r.file_id)],
       Event.call "project.agents.delete_agent"
         [("agent_id", r.fs_agent_id)],
       Event.call "project.agents.messages.list"
         [("thread_id", r.fs_thread_id)]] := by
  simp [quickstartRun, quickstart, okOracle, callsOf, isCleanupOrListCall,
    cleanupAndListMethods, FileSearchTool.definitions,
    FileSearchTool.resources, String.intercalate, String.intercalate.go,
    List.filter]

/-- C10: the file-search agent is created with the hard-coded model
string gpt-4o: however the MODEL_DEPLOYMENT_NAME variable is set, the one
agent creation of the file-search section carries model gpt-4o, so its
model argument is independent of the environment. -/
theorem filesearch_agent_model_hardcoded (endpoint model : String)
    (r : Responses) :
    (callsOf (quickstartRun (mkEnv endpoint model) (okOracle r)).1).filter
        (fun e => match e with
          | Event.call m _ => m == "project.agents.create_agent"
          | Event.print _ => false) =
      [Event.call "project.agents.create_agent"
         [("model", "gpt-4o"), ("name", "my-assistant"),
          ("instructions",
           "You are a helpful assistant and can search information from uploaded files"),
          ("tools", "file_search"),
          ("tool_resources", r.vector_store_id)]] := by
  simp [quickstartRun, quickstart, okOracle, callsOf,
    FileSearchTool.definitions, FileSearchTool.resources,
    String.intercalate, String.intercalate.go, List.filter]

/-- The same responses with the two run results replaced. -/
def withStatuses (r : Responses) (s1 e1 s2 e2 : String) : Responses :=
  { r with run1 := ⟨s1, e1, r.run1.id⟩, fs_run := ⟨s2, e2, r.fs_run.id⟩ }

/-- Under a mocked client answering every call, the issued calls are
exactly the program-order sequence with the returned identifiers threaded
through the later arguments. -/
theorem quickstart_ok_calls (endpoint model : String) (r : Responses) :
    callsOf (quickstartRun (mkEnv endpoint model) (okOracle r)).1 =
      [Event.call "DefaultAzureCredential" [],
       Event.call "AIProjectClient"
         [("endpoint", endpoint), ("credential", "DefaultAzureCredential()")],
       Event.call "project_client.get_openai_client"
         [("api_version", "2024-06-01")],
       Event.call "openai.chat.completions.create"
         [("model", model),
          ("messages.system", "You are a helpful writing assistant"),
          ("messages.user", "Write me a poem about flowers")],
       Event.call "project_client.agents.create_agent"
         [("model", model), ("name", "my-agent"),
          ("instructions", "You are a helpful writing assistant")],
       Event.call "project_client.agents.threads.create" [],
       Event.call "project_client.agents.messages.create"
         [("thread_id", r.thread_id), ("role", "user"),
          ("content", "Write me a poem about flowers")],
       Event.call "project_client.agents.runs.create_and_process"
         [("thread_id", r.thread_id), ("agent_id", r.agent_id)],
       Event.call "project_client.agents.messages.list"
         [("thread_id", r.thread_id)],
       Event.call "project_client.agents.delete_agent"
         [("agent_id", r.agent_id)],
       Event.call "project.agents.files.upload"
         [("file_path", "product_info_1.md"), ("purpose", "agents")],
       Event.call "project.agents.vector_stores.create_and_poll"
         [("file_ids", r.file_id), ("name", "my_vectorstore")],
       Event.call "project.agents.create_agent"
         [("model", "gpt-4o"), ("name", "my-assistant"),
          ("instructions",
           "You are a helpful assistant and can search information from uploaded files"),
          ("tools", "file_search"),
          ("tool_resources", r.vector_store_id)],
       Event.call "project.agents.threads.create" [],
       Event.call "project.agents.messages.create"
         [("thread_id", r.fs_thread_id), ("role", "user"),
          ("content", "Hello, what Contoso products do you know?")],
       Event.call "project.agents.runs.create_and_process"
         [("thread_id", r.fs_thread_id), ("agent_id", r.fs_agent_id)],
       Event.call "project.agents.vector_stores.delete"
         [("vector_store_id", r.vector_store_id)],
       Event.call "project.agents.files.delete" [("file_id", r.file_id)],
       Event.call "project.agents.delete_agent"
         [("agent_id", r.fs_agent_id)],
       Event.call "project.agents.messages.list"
         [("thread_id", r.fs_thread_id)],
       Event.call "project.evaluation.create_agent_evaluation"
         [("thread", r.fs_thread_id), ("run", r.fs_run.id),
          ("evaluators", "EvaluatorIds.AGENT_QUALITY_EVALUATOR")],
       Event.call "result.wait_for_completion" [],
       Event.call "result.output" []] := by
  simp [quickstartRun, quickstart, okOracle, callsOf,
    FileSearchTool.definitions, FileSearchTool.resources,
    String.intercalate, String.intercalate.go]

theorem methodsOf_eq_map (l : List Event) :
    methodsOf l = (callsOf l).map (fun e => match e with
      | Event.call m _ => m
      | Event.print _ => "") := by
  induction l with
  | nil => rfl
  | cons e t ih => cases e <;> simp [methodsOf, callsOf, ih]

/-- Under a mocked client answering every call, the method paths of the
issued calls are exactly fullMethods. -/
theorem quickstart_ok_methods (endpoint model : String) (r : Responses) :
    methodsOf (quickstartRun (mkEnv endpoint model) (okOracle r)).1 =
      fullMethods := by
  rw [methodsOf_eq_map, quickstart_ok_calls]
  rfl

/-- C8: a run finishing with status failed does not stop execution: the
issued call sequence is the same whatever the two run statuses are, and
in particular with both statuses failed the script still issues the
message listing, the agent deletion, the cleanup deletions and the
evaluation call. -/
theorem failed_run_does_not_stop_script (endpoint model : String)
    (r : Responses) (s1 e1 s2 e2 : String) :
    callsOf (quickstartRun (mkEnv endpoint model)
        (okOracle (withStatuses r s1 e1 s2 e2))).1 =
      callsOf (quickstartRun (mkEnv endpoint model) (okOracle r)).1
    ∧ "project_client.agents.messages.list" ∈
        methodsOf (quickstartRun (mkEnv endpoint model)
          (okOracle (withStatuses r "failed" e1 "failed" e2))).1
    ∧ "project_client.agents.delete_agent" ∈
        methodsOf (quickstartRun (mkEnv endpoint model)
          (okOracle (withStatuses r "failed" e1 "failed" e2))).1
    ∧ "project.agents.vector_stores.delete" ∈
        methodsOf (quickstartRun (mkEnv endpoint model)
          (okOracle (withStatuses r "failed" e1 "failed" e2))).1
    ∧ "project.agents.files.delete" ∈
        methodsOf (quickstartRun (mkEnv endpoint model)
          (okOracle (withStatuses r "failed" e1 "failed" e2))).1
    ∧ "project.agents.delete_agent" ∈
        methodsOf (quickstartRun (mkEnv endpoint model)
          (okOracle (withStatuses r "failed" e1 "failed" e2))).1
    ∧ "project.evaluation.create_agent_evaluation" ∈
        methodsOf (quickstartRun (mkEnv endpoint model)
          (okOracle (withStatuses r "failed" e1 "failed" e2))).1 := by
  refine ⟨?_, ?_, ?_, ?_, ?_, ?_, ?_⟩
  · rw [quickstart_ok_calls, quickstart_ok_calls]
    simp [withStatuses]
  all_goals
    rw [quickstart_ok_methods]
    decide
